import Mathlib

/-
Verification of the Study-Plan-Approval review dashboard.

The embedded code lives in two files:
  src/src/components/ReviewDashboard.jsx  (UI logic: score coloring,
    weighted total, decision handlers, edit modal, detail editing)
  src/src/hooks/usePlans.js  (mock queue data and submitDecision)

JavaScript numbers that hold scores and hours are embedded as Int
(handleDetailChange can store negative integers); JavaScript strings are
embedded as String.  The weighted total is computed by the source with
Math.round on a double-precision sum; see the comment on weightedTotal
for why the exact-rational embedding is faithful on the quantified range.
-/

/-- A study-plan detail line as used by the dashboard and the mock data:
courseCode, courseName, allocatedHours, priority (the priority select
offers the strings High, Medium, Low). -/
structure PlanDetailLine where
  courseCode : String
  courseName : String
  allocatedHours : Int
  priority : String
deriving DecidableEq

/-- A study plan as held by usePlans: identity and display metadata, the
three criterion scores, the stored weighted_color string, the three
reasoning texts, and the detail lines. -/
structure Plan where
  planId : String
  studentName : String
  course : String
  semester : String
  scheduling_score : Int
  alignment_score : Int
  workload_score : Int
  weighted_color : String
  scheduling_reasoning : String
  alignment_reasoning : String
  overall_recommendation : String
  study_plan_details : List PlanDetailLine
deriving DecidableEq

/-- First entry of the MOCK_PLANS array in src/src/hooks/usePlans.js. -/
def plan001 : Plan :=
  { planId := ("plan-001")
  , studentName := ("Alice Johnson (Math Major)")
  , course := ("Advanced Calculus")
  , semester := ("Fall 2025")
  , scheduling_score := 70
  , alignment_score := 85
  , workload_score := 55
  , weighted_color := ("yellow")
  , scheduling_reasoning := ("The student scheduled PHY-101 and BUS-101 exams on the same day (May 1st) in separate slots, which creates an elevated risk of stress and poor performance. This is the main scheduling concern.")
  , alignment_reasoning := ("All selected courses (MTH-110, MTH-215, PHY-101) are highly relevant to the Mathematics major core curriculum.")
  , overall_recommendation := ("The plan is borderline. Review the May 1st exam conflict. Consider suggesting the student request a deferral for one of the exams to reduce stress.")
  , study_plan_details :=
      [ { courseCode := ("MTH-110"), courseName := ("Calculus I"), allocatedHours := 10, priority := ("High") }
      , { courseCode := ("MTH-215"), courseName := ("Linear Algebra"), allocatedHours := 8, priority := ("High") }
      , { courseCode := ("PHY-101"), courseName := ("Classical Mechanics"), allocatedHours := 12, priority := ("High") }
      , { courseCode := ("BUS-101"), courseName := ("Intro to Business"), allocatedHours := 5, priority := ("Medium") } ] }

/-- Second entry of the MOCK_PLANS array in src/src/hooks/usePlans.js. -/
def plan002 : Plan :=
  { planId := ("plan-002")
  , studentName := ("Bob Smith (CS Major)")
  , course := ("Database Management")
  , semester := ("Fall 2025")
  , scheduling_score := 80
  , alignment_score := 60
  , workload_score := 65
  , weighted_color := ("yellow")
  , scheduling_reasoning := ("The schedule is balanced with adequate time between lectures and exams. No immediate time conflicts were found.")
  , alignment_reasoning := ("CSC-310 (Database Systems) is core, but the student is taking HRM-200 (HR Management), which has no clear link to the Computer Science degree. This is impacting the alignment score.")
  , overall_recommendation := ("The plan is generally safe. The alignment is questioned due to one outlier course (HRM-200). Human review should confirm if HRM-200 is being taken for a minor or elective credit.")
  , study_plan_details :=
      [ { courseCode := ("CSC-310"), courseName := ("Database Systems"), allocatedHours := 15, priority := ("High") }
      , { courseCode := ("CSC-250"), courseName := ("Data Structures"), allocatedHours := 15, priority := ("High") }
      , { courseCode := ("HRM-200"), courseName := ("HR Management"), allocatedHours := 4, priority := ("Low") } ] }

/-- The MOCK_PLANS array of src/src/hooks/usePlans.js, the initial review
queue state. -/
def MOCK_PLANS : List Plan := [plan001, plan002]

/-- Embedding of getScoreColor (ReviewDashboard.jsx lines 86 to 90):
score at most 45 gives the red style, at most 75 the amber (yellow)
style, otherwise the green style.  The source has no range check, so the
function is total over Int. -/
def getScoreColor (score : Int) : String :=
  if score ≤ 45 then ("text-red-500 bg-red-50")
  else if score ≤ 75 then ("text-amber-600 bg-amber-50")
  else ("text-green-600 bg-green-50")

/-- Character-wise lower casing of a string content, the semantics of
the JavaScript toLowerCase() on the ASCII color codes used here. -/
def lowerChars (cs : List Char) : List Char := cs.map Char.toLower

/-- Embedding of getButtonColorClass (ReviewDashboard.jsx lines 93 to
104): switches on colorCode.toLowerCase() and maps red, yellow and
green to the corresponding button style, with a gray default. -/
def getButtonColorClass (colorCode : String) : String :=
  if lowerChars colorCode.data = ("red").data then ("bg-red-600 hover:bg-red-700")
  else if lowerChars colorCode.data = ("yellow").data then ("bg-amber-600 hover:bg-amber-700")
  else if lowerChars colorCode.data = ("green").data then ("bg-green-600 hover:bg-green-700")
  else ("bg-gray-500 hover:bg-gray-600")

/-- Embedding of the weighted total computed at ReviewDashboard.jsx
lines 171 and 204:
Math.round(scheduling_score * 0.4 + alignment_score * 0.4 + workload_score * 0.2).
Math.round rounds half toward positive infinity, i.e. the floor of
x + 1/2, and the exact value of the sum is (4s + 4a + 2w)/10; so the
exact computation gives floor((4s + 4a + 2w + 5)/10), the integer floor
division below (Int division by the positive 10 is floor division).
The lemma weightedTotal_eq_round proves this definition equal to
Mathlib round of the exact rational sum.  The source computes the sum
in double precision, which is faithful to the exact rational on the
quantified score ranges: the exact value has fractional part a multiple
of 1/5, hence at distance at least 1/10 from every half-integer, while
the rounding error of the double computation is below 2 to the power
-40, so Math.round of the double equals round of the exact rational. -/
def weightedTotal (s a w : Int) : Int :=
  (4 * s + 4 * a + 2 * w + 5) / 10

/-- The embedded weighted total agrees with Mathlib round (floor of
x + 1/2, exactly the behavior of Math.round) applied to the exact
rational value of the expression at ReviewDashboard.jsx lines 171/204. -/
theorem weightedTotal_eq_round (s a w : ℤ) :
    weightedTotal s a w
      = round ((s : ℚ) * (0.4 : ℚ) + (a : ℚ) * (0.4 : ℚ) + (w : ℚ) * (0.2 : ℚ)) := by
  have h : (s : ℚ) * (0.4 : ℚ) + (a : ℚ) * (0.4 : ℚ) + (w : ℚ) * (0.2 : ℚ) + 1 / 2
      = ((4 * s + 4 * a + 2 * w + 5 : ℤ) : ℚ) / ((10 : ℕ) : ℚ) := by
    push_cast
    ring
  rw [round_eq, h, Rat.floor_intCast_div_natCast]
  norm_num [weightedTotal]

/-- The outcome of a submitDecision call.  The source function
(usePlans.js lines 61 to 92) returns a promise that always resolves and
never rejects: there is no failure path of any kind in its body, so the
embedding always returns resolved.  The remaining constructors name the
error outcomes that the specification attributes to decision submission;
none of them is ever produced by the code. -/
inductive DecisionOutcome where
  | resolved
  | alreadyResolved
  | notFound
  | missingJustification
  | invalidPatchLine
deriving DecidableEq

/-- Embedding of submitDecision (usePlans.js lines 61 to 92).  Its
arguments are (planId, decision, context, editedDetails); context and
editedDetails are only logged, and the sole state effect is
setPlans(currentPlans.filter(p => p.planId !== planId)) at line 90.
The function performs no validation and always resolves. -/
def submitDecision (plans : List Plan) (planId : String) (decision : String)
    (context : String) (editedDetails : Option (List PlanDetailLine)) :
    List Plan × DecisionOutcome :=
  (plans.filter (fun p => p.planId != planId), DecisionOutcome.resolved)

/-- The action a call of handleDecision performs. -/
inductive DashAction where
  | noAction
  | openEditModal
  | submit (planId : String) (decision : String)
deriving DecidableEq

/-- Embedding of handleDecision (ReviewDashboard.jsx lines 112 to 127):
with no plan selected it does nothing; the edit decision opens the
context modal; any other decision is submitted for the selected plan
via submitDecision.  No score or threshold is consulted. -/
def handleDecision (selectedPlan : Option Plan) (decision : String) : DashAction :=
  match selectedPlan with
  | Option.none => DashAction.noAction
  | Option.some plan =>
      if decision = ("edit") then DashAction.openEditModal
      else DashAction.submit plan.planId decision

/-- The disabled attribute of the three decision buttons
(ReviewDashboard.jsx lines 296, 305 and 314): disabled={loading}.  It
depends on the loading flag only, never on a score. -/
def decisionButtonDisabled (loading : Bool) : Bool := loading

/-- Whitespace trimming on a character list, the semantics of the
JavaScript String.prototype.trim: drop whitespace from both ends. -/
def trimChars (cs : List Char) : List Char :=
  ((cs.dropWhile (fun c => c.isWhitespace)).reverse.dropWhile
      (fun c => c.isWhitespace)).reverse

/-- The disabled attribute of the edit-modal submit button
(ReviewDashboard.jsx line 36): disabled={!context.trim()}.  The trimmed
string is falsy exactly when it is empty, so the button is disabled
exactly when the context contains no non-whitespace character. -/
def editSubmitDisabled (context : String) : Bool :=
  (trimChars context.data).isEmpty

/-- Embedding of the edit-modal submission path (EditContextModal,
ReviewDashboard.jsx lines 6 to 49, together with handleModalSubmit,
lines 129 to 138): when the submit button is disabled (blank context)
no click can occur and nothing is submitted (outcome Option.none, queue
unchanged); otherwise handleModalSubmit calls
submitDecision(planId, edit, context, editedDetails). -/
def modalSubmitStep (context : String) (plans : List Plan) (planId : String)
    (editedDetails : List PlanDetailLine) : List Plan × Option DecisionOutcome :=
  if editSubmitDisabled context then (plans, Option.none)
  else
    let r := submitDecision plans planId ("edit") context (Option.some editedDetails)
    (r.1, Option.some r.2)

/-- The integer value of a leading run of decimal digits, Option.none
when there is no digit. -/
def leadingNat (cs : List Char) : Option Nat :=
  let ds := cs.takeWhile (fun c => c.isDigit)
  if ds.isEmpty then Option.none
  else Option.some (ds.foldl (fun acc c => 10 * acc + (c.toNat - 48)) 0)

/-- Embedding of the JavaScript parseInt applied to a string (radix 10):
leading whitespace is skipped, an optional sign is read, then the
longest leading run of decimal digits; the result is NaN (Option.none)
when no digit follows.  Trailing whitespace removed by trimChars would
be ignored by parseInt anyway, since it stops at the first
non-digit. -/
def parseIntJS (s : String) : Option Int :=
  match trimChars s.data with
  | List.cons ('-') rest => (leadingNat rest).map (fun n => -(n : Int))
  | List.cons ('+') rest => (leadingNat rest).map (fun n => (n : Int))
  | cs => (leadingNat cs).map (fun n => (n : Int))

/-- Embedding of the coercion parseInt(value) || 0 at
ReviewDashboard.jsx line 108: NaN is falsy, so a string with no leading
integer becomes 0; the JavaScript number 0 (and -0) also maps to 0,
which coincides with keeping the parsed value.  A parsed negative
integer is truthy and is kept as is. -/
def coerceHoursJS (value : String) : Int :=
  match parseIntJS value with
  | Option.none => 0
  | Option.some n => n

/-- The field assignment newDetails[index][field] = ... at
ReviewDashboard.jsx line 108: the allocatedHours field receives
parseInt(value) || 0, every other field receives the raw string.  The
dashboard invokes it only with the allocatedHours and priority fields
(lines 269 and 276). -/
def setDetailField (line : PlanDetailLine) (field : String) (value : String) :
    PlanDetailLine :=
  if field = ("allocatedHours") then { line with allocatedHours := coerceHoursJS value }
  else if field = ("priority") then { line with priority := value }
  else if field = ("courseCode") then { line with courseCode := value }
  else if field = ("courseName") then { line with courseName := value }
  else line

/-- Embedding of handleDetailChange (ReviewDashboard.jsx lines 106 to
110): copies the detail array and overwrites the given field of the
entry at the given index.  The dashboard only calls it with indices
produced by mapping over the array, so the out-of-range case (on which
the JavaScript code would throw) is embedded as the identity. -/
def handleDetailChange (details : List PlanDetailLine) (index : Nat)
    (field : String) (value : String) : List PlanDetailLine :=
  match details.get? index with
  | Option.some line => details.set index (setDetailField line field value)
  | Option.none => details

/-- The three options of the priority select control
(ReviewDashboard.jsx lines 279 to 281). -/
def priorityOptions : List String := [("High"), ("Medium"), ("Low")]

/-- The queue badge style of a plan (ReviewDashboard.jsx line 170): the
badge color comes from the stored weighted_color field of the plan, via
getButtonColorClass. -/
def queueBadgeClass (p : Plan) : String := getButtonColorClass p.weighted_color

/-- Modelled from the spec (section 4.1, for refinement comparison
only): the Aggregator color-code derived from the three current scores
by applying the classification thresholds to the weighted total.  The
source never computes this value; it displays the stored weighted_color
field instead. -/
def aggregatorColor (p : Plan) : String :=
  let t := weightedTotal p.scheduling_score p.alignment_score p.workload_score
  if t ≤ 45 then ("red")
  else if t ≤ 75 then ("yellow")
  else ("green")

/-- Modelled from the spec (section 4.1, for refinement comparison
only): exact round-half-up of a rational, the floor of x + 1/2. -/
def specRoundHalfUp (x : ℚ) : ℤ := ⌊x + 1 / 2⌋

/-- A plan value with the same scores as plan001 but a stored
weighted_color of green: the Plan shape of the source admits it, since
weighted_color is an independent stored field. -/
def stalePlan : Plan := { plan001 with weighted_color := ("green") }

/-- Claim C1: for every integer weighted total, the classification
color is RED (the red style) when the total is at most 45, YELLOW (the
amber style) when it is between 46 and 75 inclusive, and GREEN (the
green style) when it exceeds 75; the equal-score triples (45,45,45),
(46,46,46), (75,75,75) and (76,76,76) give weighted totals 45, 46, 75
and 76 and hence RED, YELLOW, YELLOW and GREEN. -/
theorem c1_classification_thresholds :
    (∀ total : Int,
      (total ≤ 45 → getScoreColor total = ("text-red-500 bg-red-50")) ∧
      (46 ≤ total → total ≤ 75 → getScoreColor total = ("text-amber-600 bg-amber-50")) ∧
      (75 < total → getScoreColor total = ("text-green-600 bg-green-50"))) ∧
    (weightedTotal 45 45 45 = 45 ∧ getScoreColor 45 = ("text-red-500 bg-red-50")) ∧
    (weightedTotal 46 46 46 = 46 ∧ getScoreColor 46 = ("text-amber-600 bg-amber-50")) ∧
    (weightedTotal 75 75 75 = 75 ∧ getScoreColor 75 = ("text-amber-600 bg-amber-50")) ∧
    (weightedTotal 76 76 76 = 76 ∧ getScoreColor 76 = ("text-green-600 bg-green-50")) := by
  refine ⟨fun total => ⟨?_, ?_, ?_⟩, by decide, by decide, by decide, by decide⟩
  · intro h
    unfold getScoreColor
    rw [if_pos h]
  · intro h1 h2
    unfold getScoreColor
    rw [if_neg (by omega), if_pos h2]
  · intro h
    unfold getScoreColor
    rw [if_neg (by omega), if_neg (by omega)]

/-- Claim C1 witness: the three threshold branches evaluated at the
concrete totals 40, 60 and 80. -/
theorem c1_classification_thresholds_check :
    getScoreColor 40 = ("text-red-500 bg-red-50") ∧
    getScoreColor 60 = ("text-amber-600 bg-amber-50") ∧
    getScoreColor 80 = ("text-green-600 bg-green-50") :=
  ⟨(c1_classification_thresholds.1 40).1 (by decide),
   (c1_classification_thresholds.1 60).2.1 (by decide) (by decide),
   (c1_classification_thresholds.1 80).2.2 (by decide)⟩

/-- Claim C4: for integer scores in [0,100] the weighted total equals
the exact-arithmetic round-half-up of
0.4 * scheduling + 0.4 * alignment + 0.2 * workload, and the scores
(70, 85, 55) give total 73 and the YELLOW (amber) classification. -/
theorem c4_weighted_total_round_half_up (s a w : Int)
    (hs0 : 0 ≤ s) (hs1 : s ≤ 100) (ha0 : 0 ≤ a) (ha1 : a ≤ 100)
    (hw0 : 0 ≤ w) (hw1 : w ≤ 100) :
    weightedTotal s a w
      = specRoundHalfUp ((s : ℚ) * (0.4 : ℚ) + (a : ℚ) * (0.4 : ℚ) + (w : ℚ) * (0.2 : ℚ)) ∧
    weightedTotal 70 85 55 = 73 ∧
    getScoreColor (weightedTotal 70 85 55) = ("text-amber-600 bg-amber-50") := by
  refine ⟨?_, by decide, by decide⟩
  have h := weightedTotal_eq_round s a w
  rw [round_eq] at h
  simpa [specRoundHalfUp] using h

/-- Claim C4 witness: the theorem instantiated at the scores
(70, 85, 55) of the specification example. -/
theorem c4_weighted_total_round_half_up_check :
    weightedTotal 70 85 55
      = specRoundHalfUp (((70 : Int) : ℚ) * (0.4 : ℚ) + ((85 : Int) : ℚ) * (0.4 : ℚ)
          + ((55 : Int) : ℚ) * (0.2 : ℚ)) ∧
    weightedTotal 70 85 55 = 73 ∧
    getScoreColor (weightedTotal 70 85 55) = ("text-amber-600 bg-amber-50") :=
  c4_weighted_total_round_half_up 70 85 55 (by decide) (by decide) (by decide)
    (by decide) (by decide) (by decide)

/-- Claim C5: approve and reject are always permitted for the selected
plan regardless of its scores: handleDecision submits them for every
plan value, its result depends only on the planId of the selected plan,
and the decision buttons are disabled only by the loading flag, never
by a score or threshold. -/
theorem c5_approve_reject_unconditional :
    (∀ p : Plan, handleDecision (Option.some p) ("approve")
        = DashAction.submit p.planId ("approve")) ∧
    (∀ p : Plan, handleDecision (Option.some p) ("reject")
        = DashAction.submit p.planId ("reject")) ∧
    (∀ loading : Bool, decisionButtonDisabled loading = loading) :=
  ⟨fun _ => rfl, fun _ => rfl, fun _ => rfl⟩

/-- Claim C10: after submitDecision the queue contains no entry with
the given planId, the remaining entries are exactly the entries of the
original queue with a different planId, their relative order is
preserved (the result is a sublist of the original queue), and when no
entry with that planId was present the queue is unchanged. -/
theorem c10_submit_queue_frame (plans : List Plan) (pid d c : String)
    (e : Option (List PlanDetailLine)) :
    ((submitDecision plans pid d c e).1.Sublist plans) ∧
    (∀ p : Plan, p ∈ (submitDecision plans pid d c e).1 ↔ p ∈ plans ∧ p.planId ≠ pid) ∧
    (pid ∉ plans.map Plan.planId → (submitDecision plans pid d c e).1 = plans) := by
  refine ⟨List.filter_sublist plans, fun p => ?_, fun h => ?_⟩
  · simp [submitDecision, List.mem_filter, bne_iff_ne]
  · refine List.filter_eq_self.mpr (fun p hp => ?_)
    have hne : p.planId ≠ pid := fun he => h (he ▸ List.mem_map_of_mem Plan.planId hp)
    simpa [bne_iff_ne] using hne

set_option maxRecDepth 4000 in
/-- Claim C10 witness: submitting a decision for the absent planId
plan-999 leaves the mock queue unchanged. -/
theorem c10_submit_queue_frame_check :
    (submitDecision MOCK_PLANS ("plan-999") ("approve") ("") Option.none).1 = MOCK_PLANS :=
  (c10_submit_queue_frame MOCK_PLANS ("plan-999") ("approve") ("") Option.none).2.2
    (by decide)

set_option maxRecDepth 4000 in
/-- Claim C2 counterexample: after plan-001 has been resolved by a
first submitDecision, a second submitDecision for the same plan version
resolves successfully instead of failing with AlreadyResolved. -/
theorem c2_second_submission_not_rejected :
    (submitDecision
        (submitDecision MOCK_PLANS ("plan-001") ("approve") ("") Option.none).1
        ("plan-001") ("reject") ("") Option.none).2 = DecisionOutcome.resolved ∧
    DecisionOutcome.resolved ≠ DecisionOutcome.alreadyResolved :=
  ⟨rfl, by decide⟩

/-- Claim C2 as amended: every submitDecision resolves successfully
(the code tracks no per-version resolution state and never produces
AlreadyResolved); after the first submission the queue holds zero
entries for that planId, and a second submission for the same planId
also resolves successfully and leaves the queue unchanged. -/
theorem c2_resubmission_is_noop (plans : List Plan) (pid d1 d2 ctx1 ctx2 : String)
    (e1 e2 : Option (List PlanDetailLine)) :
    (submitDecision plans pid d1 ctx1 e1).2 = DecisionOutcome.resolved ∧
    ((submitDecision plans pid d1 ctx1 e1).1.countP (fun p => p.planId == pid)) = 0 ∧
    (submitDecision (submitDecision plans pid d1 ctx1 e1).1 pid d2 ctx2 e2).2
      = DecisionOutcome.resolved ∧
    (submitDecision (submitDecision plans pid d1 ctx1 e1).1 pid d2 ctx2 e2).1
      = (submitDecision plans pid d1 ctx1 e1).1 := by
  refine ⟨rfl, ?_, rfl, ?_⟩
  · refine List.countP_eq_zero.mpr (fun p hp => ?_)
    have h := (List.mem_filter.mp hp).2
    simp only [bne_iff_ne, ne_eq] at h
    simpa [beq_iff_eq] using h
  · show (List.filter _ _).filter _ = List.filter _ _
    refine List.filter_eq_self.mpr (fun p hp => (List.mem_filter.mp hp).2)

set_option maxRecDepth 4000 in
/-- Claim C3 counterexample: the Plan shape stores weighted_color as an
independent field, so a plan whose scores derive YELLOW (total 73) but
whose stored color is green is representable, and the queue badge shows
the stored green, not the color the Aggregator would derive. -/
theorem c3_stored_color_can_be_stale :
    weightedTotal stalePlan.scheduling_score stalePlan.alignment_score
        stalePlan.workload_score = 73 ∧
    aggregatorColor stalePlan = ("yellow") ∧
    queueBadgeClass stalePlan = ("bg-green-600 hover:bg-green-700") ∧
    queueBadgeClass stalePlan ≠ getButtonColorClass (aggregatorColor stalePlan) :=
  ⟨by decide, by decide, by decide, by decide⟩

/-- Claim C3 as amended: the official queue badge color is computed
from the stored weighted_color field alone, so any two plans with equal
stored colors show equal badges regardless of their scores; for both
mock plans the stored color does coincide with the color derived from
the scores by the thresholds, but nothing recomputes it. -/
theorem c3_badge_from_stored_field (p q : Plan)
    (h : p.weighted_color = q.weighted_color) :
    queueBadgeClass p = queueBadgeClass q ∧
    MOCK_PLANS.all (fun r => r.weighted_color == aggregatorColor r) = true := by
  refine ⟨?_, by decide⟩
  rw [queueBadgeClass, queueBadgeClass, h]

set_option maxRecDepth 4000 in
/-- Claim C3 witness: the two mock plans have the same stored color and
hence the same badge. -/
theorem c3_badge_from_stored_field_check :
    queueBadgeClass plan001 = queueBadgeClass plan002 ∧
    MOCK_PLANS.all (fun r => r.weighted_color == aggregatorColor r) = true :=
  c3_badge_from_stored_field plan001 plan002 (by decide)

set_option maxRecDepth 4000 in
/-- Claim C6 counterexample: submitDecision accepts an edit decision
with empty context: it resolves successfully (no MissingJustification
error exists in the code) and removes the plan from the queue, so state
is mutated and the plan does not remain queued. -/
theorem c6_empty_context_edit_accepted :
    (submitDecision MOCK_PLANS ("plan-001") ("edit") ("")
        (Option.some plan001.study_plan_details)).2 = DecisionOutcome.resolved ∧
    ((submitDecision MOCK_PLANS ("plan-001") ("edit") ("")
        (Option.some plan001.study_plan_details)).1.countP
        (fun p => p.planId == ("plan-001"))) = 0 ∧
    DecisionOutcome.resolved ≠ DecisionOutcome.missingJustification :=
  ⟨rfl, by decide, by decide⟩

/-- Claim C6 as amended: an edit with blank (empty or whitespace-only)
context cannot be submitted through the UI, because the modal submit
button is disabled exactly then; no submission happens, so the queue is
unchanged and the plan remains queued.  The code raises no
MissingJustification error, and submitDecision itself accepts an empty
context (see the counterexample). -/
theorem c6_blank_context_blocked_by_disabled_button
    (context : String) (plans : List Plan) (pid : String)
    (details : List PlanDetailLine)
    (h : (trimChars context.data).isEmpty = true) :
    editSubmitDisabled context = true ∧
    modalSubmitStep context plans pid details = (plans, Option.none) := by
  constructor
  · exact h
  · simp [modalSubmitStep, editSubmitDisabled, h]

/-- Claim C6 witness: the empty context leaves the mock queue
untouched. -/
theorem c6_blank_context_blocked_by_disabled_button_check :
    editSubmitDisabled ("") = true ∧
    modalSubmitStep ("") MOCK_PLANS ("plan-001") [] = (MOCK_PLANS, Option.none) :=
  c6_blank_context_blocked_by_disabled_button ("") MOCK_PLANS ("plan-001") []
    (by decide)

set_option maxRecDepth 4000 in
/-- Claim C7 counterexample: submitting a decision for the absent
planId plan-999 succeeds as a no-op: the queue is returned unchanged
and the outcome is resolved, not a NotFound error. -/
theorem c7_absent_plan_removal_succeeds :
    submitDecision MOCK_PLANS ("plan-999") ("approve") ("") Option.none
      = (MOCK_PLANS, DecisionOutcome.resolved) ∧
    DecisionOutcome.resolved ≠ DecisionOutcome.notFound :=
  ⟨by decide, by decide⟩

/-- Claim C7 as amended: removal of a planId absent from the queue is a
silent successful no-op (queue unchanged, outcome resolved, no NotFound
error), and removal is idempotent: a repeated removal of the same
planId leaves the queue of the first removal unchanged. -/
theorem c7_removal_is_silent_noop (plans : List Plan) (pid d c : String)
    (e : Option (List PlanDetailLine)) (h : pid ∉ plans.map Plan.planId) :
    (submitDecision plans pid d c e).1 = plans ∧
    (submitDecision plans pid d c e).2 = DecisionOutcome.resolved ∧
    (submitDecision (submitDecision plans pid d c e).1 pid d c e).1
      = (submitDecision plans pid d c e).1 := by
  refine ⟨?_, rfl, ?_⟩
  · refine List.filter_eq_self.mpr (fun p hp => ?_)
    have hne : p.planId ≠ pid := fun he => h (he ▸ List.mem_map_of_mem Plan.planId hp)
    simpa [bne_iff_ne] using hne
  · show (List.filter _ _).filter _ = List.filter _ _
    refine List.filter_eq_self.mpr (fun p hp => (List.mem_filter.mp hp).2)

set_option maxRecDepth 4000 in
/-- Claim C7 witness: removing the absent plan-999 from the mock queue
is a successful no-op. -/
theorem c7_removal_is_silent_noop_check :
    (submitDecision MOCK_PLANS ("plan-999") ("approve") ("") Option.none).1 = MOCK_PLANS ∧
    (submitDecision MOCK_PLANS ("plan-999") ("approve") ("") Option.none).2
      = DecisionOutcome.resolved ∧
    (submitDecision (submitDecision MOCK_PLANS ("plan-999") ("approve") ("") Option.none).1
        ("plan-999") ("approve") ("") Option.none).1
      = (submitDecision MOCK_PLANS ("plan-999") ("approve") ("") Option.none).1 :=
  c7_removal_is_silent_noop MOCK_PLANS ("plan-999") ("approve") ("") Option.none
    (by decide)

/-- Claim C8 counterexample: the out-of-range score 150 is classified
(it receives the green style) and out-of-range scores flow into the
weighted total unclamped: (150,150,150) gives total 150, and
(200,0,0) gives 80 where clamping 200 to 100 would give 40.  No
InvalidScore error exists in the code. -/
theorem c8_out_of_range_score_classified :
    getScoreColor 150 = ("text-green-600 bg-green-50") ∧
    weightedTotal 150 150 150 = 150 ∧
    weightedTotal 200 0 0 = 80 :=
  ⟨by decide, by decide, by decide⟩

/-- Claim C8 as amended: the code never validates score ranges:
getScoreColor is total and classifies every integer into one of the
three styles (negative scores get red, scores above 75, however large,
get green), and the weighted total is computed from the raw scores with
no clamping. -/
theorem c8_no_score_validation :
    (∀ s : Int, getScoreColor s = ("text-red-500 bg-red-50")
        ∨ getScoreColor s = ("text-amber-600 bg-amber-50")
        ∨ getScoreColor s = ("text-green-600 bg-green-50")) ∧
    getScoreColor (-5) = ("text-red-500 bg-red-50") ∧
    getScoreColor 150 = ("text-green-600 bg-green-50") ∧
    weightedTotal 200 0 0 = 80 := by
  refine ⟨fun s => ?_, by decide, by decide, by decide⟩
  unfold getScoreColor
  split_ifs
  · exact Or.inl rfl
  · exact Or.inr (Or.inl rfl)
  · exact Or.inr (Or.inr rfl)

set_option maxRecDepth 4000 in
/-- Claim C9 counterexample: entering -5 as allocated hours stores the
negative integer -5 in the detail line (parseInt keeps it, the
truthiness fallback does not trigger), and submitting the edited
details resolves successfully: no InvalidPatchLine error exists and the
invalid line is applied rather than aborting the submission. -/
theorem c9_invalid_patch_line_accepted :
    ((handleDetailChange plan001.study_plan_details 0 ("allocatedHours") ("-5")).get? 0).map
        PlanDetailLine.allocatedHours = Option.some (-5) ∧
    (submitDecision MOCK_PLANS ("plan-001") ("edit") ("fix hours")
        (Option.some (handleDetailChange plan001.study_plan_details 0
          ("allocatedHours") ("-5")))).2 = DecisionOutcome.resolved ∧
    DecisionOutcome.resolved ≠ DecisionOutcome.invalidPatchLine :=
  ⟨by decide, rfl, by decide⟩

/-- Claim C9 as amended: the edit path validates nothing: changing the
allocated hours of an existing line stores parseInt(value) || 0, so
non-numeric input silently becomes 0 and negative integers are stored
as written; the priority is constrained only by the three options of
the select control; and submitDecision resolves successfully for every
edited detail list, with no InvalidPatchLine failure and hence no
all-or-nothing abort. -/
theorem c9_no_patch_validation (details : List PlanDetailLine) (i : Nat)
    (v : String) (line : PlanDetailLine)
    (h : details.get? i = Option.some line) :
    handleDetailChange details i ("allocatedHours") v
      = details.set i { line with allocatedHours := coerceHoursJS v } ∧
    (∀ s : String, parseIntJS s = Option.none → coerceHoursJS s = 0) ∧
    coerceHoursJS ("-5") = -5 ∧
    priorityOptions = [("High"), ("Medium"), ("Low")] ∧
    (∀ (plans : List Plan) (pid ctx : String) (dts : List PlanDetailLine),
      (submitDecision plans pid ("edit") ctx (Option.some dts)).2
        = DecisionOutcome.resolved) := by
  refine ⟨?_, fun s hs => ?_, by decide, rfl, fun plans pid ctx dts => rfl⟩
  · unfold handleDetailChange
    rw [h]
    rfl
  · simp [coerceHoursJS, hs]

set_option maxRecDepth 4000 in
/-- Claim C9 witness: the theorem instantiated at the first detail line
of plan001 with the input -5. -/
theorem c9_no_patch_validation_check :
    handleDetailChange plan001.study_plan_details 0 ("allocatedHours") ("-5")
      = plan001.study_plan_details.set 0
          { courseCode := ("MTH-110"), courseName := ("Calculus I")
          , allocatedHours := coerceHoursJS ("-5"), priority := ("High") } ∧
    (∀ s : String, parseIntJS s = Option.none → coerceHoursJS s = 0) ∧
    coerceHoursJS ("-5") = -5 ∧
    priorityOptions = [("High"), ("Medium"), ("Low")] ∧
    (∀ (plans : List Plan) (pid ctx : String) (dts : List PlanDetailLine),
      (submitDecision plans pid ("edit") ctx (Option.some dts)).2
        = DecisionOutcome.resolved) :=
  c9_no_patch_validation plan001.study_plan_details 0 ("-5")
    { courseCode := ("MTH-110"), courseName := ("Calculus I")
    , allocatedHours := 10, priority := ("High") } (by decide)
